import Mathlib

/-!
Verification of the CENDOJ MCP server/client (src/index.js): a JSON-RPC 2.0
style request/reply protocol over a message-framed duplex transport.

The embedding models parsed JSON values (`JValue`), the JavaScript dynamic
semantics the code relies on (property access that throws on `null`/`undefined`,
truthiness, strict equality, string conversion in template literals), the
server's per-message dispatch (`serverHandleMessage`), the server's
on-connection handshake push (`serverOnConnect`), and the client's correlation
state machine (`ClientState`, `request`, `clientHandleMessage`,
`clientHandleClose`).

`JSON.parse` / `JSON.stringify` are runtime primitives, not code of this
repository; inbound messages are therefore modelled post-parse (either
`unparsable`, for text `JSON.parse` rejects, or the parsed `JValue`), and
`jsonStringify` reimplements the stringifier on the value subset the server
emits so that the wire text of a tool result is an explicit function of the
handler's structured output.
-/

/-- A parsed JSON value: the post-`JSON.parse` shape of every message either
peer receives. Numbers are restricted to integers, the only numbers the
program ever produces or compares. -/
inductive JValue where
  | jnull
  | jbool (b : Bool)
  | jnum (n : Int)
  | jstr (s : String)
  | jarr (elems : List JValue)
  | jobj (fields : List (String × JValue))

namespace JValue

/-- Property lookup on a JavaScript object's field list. `JSON.parse` keeps the
last of duplicate keys, so lookup takes the last binding. -/
def objLookup (fields : List (String × JValue)) (k : String) : Option JValue :=
  fields.foldl (fun acc p => if p.1 = k then some p.2 else acc) none

/-- JavaScript property access `v.k`, where `none` is `undefined`: throws a
`TypeError` on `null` or `undefined`, returns `undefined` on primitives and on
objects lacking the key. -/
def jsProp (v : Option JValue) (k : String) : Except String (Option JValue) :=
  match v with
  | none => .error ("TypeError: Cannot read properties of undefined (reading " ++ k ++ ")")
  | some .jnull => .error ("TypeError: Cannot read properties of null (reading " ++ k ++ ")")
  | some (.jobj fields) => .ok (objLookup fields k)
  | some _ => .ok none

/-- JavaScript truthiness of a value (`none` = `undefined`). -/
def jsTruthy (v : Option JValue) : Bool :=
  match v with
  | none => false
  | some .jnull => false
  | some (.jbool b) => b
  | some (.jnum n) => n != 0
  | some (.jstr s) => s ≠ ""
  | some (.jarr _) => true
  | some (.jobj _) => true

/-- JavaScript strict equality `n === v` between a number the program owns and
an arbitrary received value (`none` = `undefined`): true only for the same
number, never across types and never for objects. -/
def strictEqNum (n : Int) (v : Option JValue) : Bool :=
  match v with
  | some (.jnum m) => n == m
  | _ => false

end JValue

open JValue

mutual

/-- JavaScript `String(v)` on a defined value, as used by template literals:
`null` prints `"null"`, numbers print their decimal form, arrays join their
elements with commas, plain objects print `"[object Object]"`. -/
def jsToStringV : JValue → String
  | .jnull => "null"
  | .jbool b => cond b "true" "false"
  | .jnum n => toString n
  | .jstr s => s
  | .jarr xs => jsArrJoin xs
  | .jobj _ => "[object Object]"

/-- `Array.prototype.toString`: elements joined with `","`; a `null` element
contributes the empty string. -/
def jsArrJoin : List JValue → String
  | [] => ""
  | [.jnull] => ""
  | [x] => jsToStringV x
  | .jnull :: x2 :: xs => "," ++ jsArrJoin (x2 :: xs)
  | x :: x2 :: xs => jsToStringV x ++ "," ++ jsArrJoin (x2 :: xs)

end

/-- `String(v)` lifted to possibly-`undefined` values, as interpolated by a
template literal: `undefined` prints `"undefined"`. -/
def jsToStringOpt : Option JValue → String
  | none => "undefined"
  | some v => jsToStringV v

/-- `String.prototype.toLowerCase` (ASCII range; every character this program
lowercases outside ASCII is already lowercase in the data). -/
def jsToLowerCase (s : String) : String := String.mk (s.toList.map Char.toLower)

/-- `String.prototype.includes`: `strIncludes hay needle` is true when `needle`
occurs as a contiguous substring of `hay`. -/
def strIncludes (hay needle : String) : Bool :=
  (List.range (hay.toList.length + 1)).any
    (fun i => needle.toList.isPrefixOf (hay.toList.drop i))

/-- Lower-case hexadecimal digit, for JSON string escapes of control characters. -/
def hexDigit (n : Nat) : Char :=
  if n < 10 then Char.ofNat (48 + n) else Char.ofNat (87 + n)

/-- `JSON.stringify` escaping of one string character: `"` and `\` get a
backslash escape, the named control characters get their short escapes, the
remaining control characters get `\u00XX`, everything else is kept verbatim. -/
def jsonEscapeChar (c : Char) : String :=
  if c = '"' then "\\\""
  else if c = '\\' then "\\\\"
  else if c = Char.ofNat 8 then "\\b"
  else if c = Char.ofNat 9 then "\\t"
  else if c = Char.ofNat 10 then "\\n"
  else if c = Char.ofNat 12 then "\\f"
  else if c = Char.ofNat 13 then "\\r"
  else if c.toNat < 32 then "\\u00" ++ String.mk [hexDigit (c.toNat / 16), hexDigit (c.toNat % 16)]
  else String.singleton c

/-- `JSON.stringify` of a string: quoted, with each character escaped. -/
def jsonEscapeStr (s : String) : String :=
  "\"" ++ String.join (s.toList.map jsonEscapeChar) ++ "\""

mutual

/-- `JSON.stringify` on the value subset the server emits (no `undefined`
members occur in any emitted value): object members keep insertion order. -/
def jsonStringify : JValue → String
  | .jnull => "null"
  | .jbool b => cond b "true" "false"
  | .jnum n => toString n
  | .jstr s => jsonEscapeStr s
  | .jarr xs => "[" ++ jsonStringifyArr xs ++ "]"
  | .jobj fs => "\x7b" ++ jsonStringifyFields fs ++ "\x7d"

def jsonStringifyArr : List JValue → String
  | [] => ""
  | [x] => jsonStringify x
  | x :: x2 :: xs => jsonStringify x ++ "," ++ jsonStringifyArr (x2 :: xs)

def jsonStringifyFields : List (String × JValue) → String
  | [] => ""
  | [(k, v)] => jsonEscapeStr k ++ ":" ++ jsonStringify v
  | (k, v) :: f2 :: fs =>
    jsonEscapeStr k ++ ":" ++ jsonStringify v ++ "," ++ jsonStringifyFields (f2 :: fs)

end

/-- One judicial record of the in-memory store (src/index.js lines 11-15). -/
structure Sentencia where
  id : Int
  sala : String
  juez : String
  cendoj_id : String
  resolucion : String

/-- The dummy record store, in source order. -/
def sentencias : List Sentencia :=
  [ ⟨1, "Sala de lo Social", "Juan García",
     "28079150012015000001", "Sentencia favorable"⟩,
    ⟨2, "Sala de Contencioso", "María López",
     "28079150022015000002", "Sentencia desestimada"⟩,
    ⟨3, "Sala de lo Penal", "Carlos Martín",
     "28079150032015000003", "Sentencia condenatoria"⟩ ]

/-- A record as the JSON object the store holds (member insertion order as in
the source literal). -/
def sentenciaJ (s : Sentencia) : JValue :=
  .jobj [("id", .jnum s.id), ("sala", .jstr s.sala), ("juez", .jstr s.juez),
         ("cendoj_id", .jstr s.cendoj_id), ("resolucion", .jstr s.resolucion)]

/-- The inner `switch (toolName)` of the `tools/call` case (src/index.js lines
139-164), as a function of the tool name (`params.name`, possibly `undefined`
or a non-string) and `toolArgs` (after `params.arguments || {}`). An
`Except.error` is a JavaScript exception escaping the handler:
`search_by_sala` / `search_by_judge` call `.toLowerCase()` on their argument
inside the filter callback, which the three-element store always runs, so a
missing or non-string argument throws a `TypeError`. -/
def toolHandler (toolName : Option JValue) (toolArgs : JValue) : Except String JValue :=
  match toolName with
  | some (.jstr "list_sentences") =>
    .ok (.jobj [("data", .jarr (sentencias.map sentenciaJ)),
                ("count", .jnum sentencias.length)])
  | some (.jstr "search_by_sala") => do
    let sala ← jsProp (some toolArgs) "sala"
    match sala with
    | some (.jstr q) =>
      let filtered := sentencias.filter
        (fun s => strIncludes (jsToLowerCase s.sala) (jsToLowerCase q))
      .ok (.jobj [("data", .jarr (filtered.map sentenciaJ)),
                  ("count", .jnum filtered.length), ("query", .jstr q)])
    | none => .error "TypeError: Cannot read properties of undefined (reading toLowerCase)"
    | some _ => .error "TypeError: sala.toLowerCase is not a function"
  | some (.jstr "search_by_judge") => do
    let juez ← jsProp (some toolArgs) "juez"
    match juez with
    | some (.jstr q) =>
      let filtered := sentencias.filter
        (fun s => strIncludes (jsToLowerCase s.juez) (jsToLowerCase q))
      .ok (.jobj [("data", .jarr (filtered.map sentenciaJ)),
                  ("count", .jnum filtered.length), ("query", .jstr q)])
    | none => .error "TypeError: Cannot read properties of undefined (reading toLowerCase)"
    | some _ => .error "TypeError: juez.toLowerCase is not a function"
  | some (.jstr "get_sentence") => do
    let idArg ← jsProp (some toolArgs) "id"
    match sentencias.find? (fun s => strictEqNum s.id idArg) with
    | some s => .ok (.jobj [("data", sentenciaJ s)])
    | none => .ok (.jobj [("error",
        .jstr ("Sentencia " ++ jsToStringOpt idArg ++ " no encontrada"))])
  | other =>
    .ok (.jobj [("error", .jstr ("Herramienta desconocida: " ++ jsToStringOpt other))])

/-- The capabilities/version payload. The source builds this object twice with
identical literals: as the handshake push's `result` (src/index.js lines 30-40)
and as the `initialize` reply's `result` (lines 56-68). -/
def serverCapsResult : JValue :=
  .jobj [("protocolVersion", .jstr "2024-11-05"),
         ("capabilities", .jobj [("logging", .jobj []), ("tools", .jobj [])]),
         ("serverInfo", .jobj [("name", .jstr "Cendoj MCP Server"),
                               ("version", .jstr "1.0.0")])]

/-- The four static Tool Descriptors, in source order (src/index.js lines
76-128). -/
def toolDescriptors : List JValue :=
  [ .jobj [("name", .jstr "list_sentences"),
           ("description",
            .jstr "Lista todas las sentencias disponibles en la base de datos CENDOJ"),
           ("inputSchema",
            .jobj [("type", .jstr "object"), ("properties", .jobj []),
                   ("required", .jarr [])])],
    .jobj [("name", .jstr "search_by_sala"),
           ("description", .jstr "Busca sentencias por sala judicial"),
           ("inputSchema",
            .jobj [("type", .jstr "object"),
                   ("properties",
                    .jobj [("sala",
                            .jobj [("type", .jstr "string"),
                                   ("description", .jstr "Nombre de la sala judicial")])]),
                   ("required", .jarr [.jstr "sala"])])],
    .jobj [("name", .jstr "search_by_judge"),
           ("description", .jstr "Busca sentencias por juez"),
           ("inputSchema",
            .jobj [("type", .jstr "object"),
                   ("properties",
                    .jobj [("juez",
                            .jobj [("type", .jstr "string"),
                                   ("description", .jstr "Nombre del juez")])]),
                   ("required", .jarr [.jstr "juez"])])],
    .jobj [("name", .jstr "get_sentence"),
           ("description", .jstr "Obtiene una sentencia específica por ID"),
           ("inputSchema",
            .jobj [("type", .jstr "object"),
                   ("properties",
                    .jobj [("id",
                            .jobj [("type", .jstr "number"),
                                   ("description", .jstr "ID de la sentencia")])]),
                   ("required", .jarr [.jstr "id"])])] ]

/-- The `tools/list` reply's `result` object (src/index.js lines 75-129). -/
def toolsListResult : JValue := .jobj [("tools", .jarr toolDescriptors)]

/-- A reply envelope as the server sends it (always with `jsonrpc: "2.0"`):
either a successful `result` reply or an `error` reply with a numeric code and
message. `id` is the echoed request identifier; `none` means the member is
absent from the wire object (`JSON.stringify` drops an `undefined` member). -/
inductive Envelope where
  | result (res : JValue) (id : Option JValue)
  | rpcError (code : Int) (message : String) (id : Option JValue)

/-- The `result` payload of an envelope, when it is a successful reply. -/
def Envelope.payload : Envelope → Option JValue
  | .result r _ => some r
  | .rpcError _ _ _ => none

/-- The echoed identifier of an envelope. -/
def Envelope.envId : Envelope → Option JValue
  | .result _ i => i
  | .rpcError _ _ i => i

/-- `params.arguments || {}` (src/index.js line 136): the argument object, or
`{}` when the member is absent or otherwise falsy. -/
def argsOrDefault (v : Option JValue) : JValue :=
  if jsTruthy v then v.getD (.jobj []) else .jobj []

/-- The `tools/call` reply's `result` (src/index.js line 168): the handler's
structured result re-encoded as a text payload. -/
def contentWrap (toolResult : JValue) : JValue :=
  .jobj [("content",
          .jarr [.jobj [("type", .jstr "text"),
                        ("text", .jstr (jsonStringify toolResult))]])]

/-- The body of the server's message-handler `try` block (src/index.js lines
48-181): destructure the parsed request (throws on `null`), switch on `method`,
build the reply envelope. An `Except.error` is a JavaScript exception reaching
the `catch` block. -/
def serverDispatch (request : JValue) : Except String Envelope := do
  let method ← jsProp (some request) "method"
  let params ← jsProp (some request) "params"
  let id ← jsProp (some request) "id"
  match method with
  | some (.jstr "initialize") => .ok (.result serverCapsResult id)
  | some (.jstr "tools/list") => .ok (.result toolsListResult id)
  | some (.jstr "tools/call") => do
    let toolName ← jsProp params "name"
    let argsV ← jsProp params "arguments"
    let toolResult ← toolHandler toolName (argsOrDefault argsV)
    .ok (.result (contentWrap toolResult) id)
  | _ => .ok (.rpcError (-32601) ("Método desconocido: " ++ jsToStringOpt method) id)

/-- An inbound frame as the server's message callback sees it: text that
`JSON.parse` rejects, or the parsed value. -/
inductive ServerIn where
  | unparsable
  | value (v : JValue)

/-- The server's full per-message behaviour (src/index.js lines 46-190): the
`try` block, with the `catch` replying a parse-error envelope, code `-32700`,
explicit `null` identifier. -/
def serverHandleMessage : ServerIn → Envelope
  | .unparsable => .rpcError (-32700) "Parse error" (some .jnull)
  | .value v =>
    match serverDispatch v with
    | .ok resp => resp
    | .error _ => .rpcError (-32700) "Parse error" (some .jnull)

/-- The envelopes the server sends on connection accept, before any inbound
message (src/index.js lines 28-43): exactly the one handshake push, a result
envelope bearing the reserved identifier 0. -/
def serverOnConnect : List Envelope :=
  [.result serverCapsResult (some (.jnum 0))]

/-- An inbound frame as the client's message listener sees it: text that
`JSON.parse` rejects, or the parsed value. -/
inductive ClientIn where
  | unparsable
  | value (v : JValue)

/-- What settling a Pending Call Record does, made observable: the stored
continuation pair is an opaque token of type `τ`; `resolved` invokes its
resolve continuation with `msg.result` (possibly `undefined`), `rejected`
invokes its reject continuation with the `Error` message. -/
inductive ClientEvent (τ : Type) where
  | resolved (handler : τ) (result : Option JValue)
  | rejected (handler : τ) (message : String)

/-- The `MCPClient` correlation state (scraper, `constructor`): the pending map
`id → handler` in insertion order, and the next identifier to assign. -/
structure ClientState (τ : Type) where
  pending : List (Int × τ)
  nextId : Int

/-- A freshly constructed `MCPClient`: empty pending map, `nextId = 1`. -/
def freshClient (τ : Type) : ClientState τ := ⟨[], 1⟩

namespace MCPClient

/-- `Map.prototype.set`: overwrite in place when the key is present, append
otherwise (JavaScript `Map` keeps insertion order). -/
def mapSet {τ : Type} (m : List (Int × τ)) (k : Int) (v : τ) : List (Int × τ) :=
  if m.any (fun p => p.1 == k) then
    m.map (fun p => if p.1 == k then (k, v) else p)
  else m ++ [(k, v)]

/-- `Map.prototype.get` on an integer key. -/
def mapGet {τ : Type} (m : List (Int × τ)) (k : Int) : Option τ :=
  (m.find? (fun p => p.1 == k)).map (fun p => p.2)

/-- `Map.prototype.delete`. -/
def mapDelete {τ : Type} (m : List (Int × τ)) (k : Int) : List (Int × τ) :=
  m.filter (fun p => p.1 != k)

/-- `MCPClient.request` (scraper lines 288-294): assign `id = this.nextId++`,
store the continuation pair in the pending map under `id`, send the request
envelope. Returns the new state, the assigned identifier, and the sent wire
object. -/
def request {τ : Type} (st : ClientState τ) (handler : τ) (method : String)
    (params : JValue) : ClientState τ × Int × JValue :=
  let id := st.nextId
  (⟨mapSet st.pending id handler, st.nextId + 1⟩, id,
   .jobj [("jsonrpc", .jstr "2.0"), ("method", .jstr method),
          ("params", params), ("id", .jnum id)])

/-- The `message` listener registered in `connect` (scraper lines 255-275):
drop unparsable text, drop the id-0 handshake, look the identifier up in the
pending map (drop when absent), delete the record, then reject on a truthy
`error` member, else resolve with `result`. An `Except.error` is an exception
escaping the listener. -/
def connectOnMessage {τ : Type} (st : ClientState τ) (raw : ClientIn) :
    Except String (ClientState τ × Option (ClientEvent τ)) :=
  match raw with
  | .unparsable => .ok (st, none)
  | .value msg => do
    let mid ← jsProp (some msg) "id"
    if strictEqNum 0 mid then .ok (st, none)
    else
      match mid with
      | some (.jnum k) =>
        match mapGet st.pending k with
        | none => .ok (st, none)
        | some h => do
          let st' : ClientState τ := ⟨mapDelete st.pending k, st.nextId⟩
          let merr ← jsProp (some msg) "error"
          if jsTruthy merr then
            let c ← jsProp merr "code"
            let m ← jsProp merr "message"
            .ok (st', some (.rejected h ("[" ++ jsToStringOpt c ++ "] " ++ jsToStringOpt m)))
          else do
            let res ← jsProp (some msg) "result"
            .ok (st', some (.resolved h res))
      | _ => .ok (st, none)

/-- The `close` listener registered in `connect` (scraper lines 279-284):
reject every pending record with the connection-closed error, in map order,
then clear the pending map. -/
def connectOnClose {τ : Type} (st : ClientState τ) : ClientState τ × List (ClientEvent τ) :=
  (⟨[], st.nextId⟩,
   st.pending.map (fun p => .rejected p.2 "Conexión cerrada inesperadamente"))

/-- Issuing a sequence of calls back to back: a fold of `request`, collecting
the assigned identifiers in issue order. -/
def issueCalls {τ : Type} (st : ClientState τ) :
    List (τ × String × JValue) → ClientState τ × List Int
  | [] => (st, [])
  | c :: cs =>
    let r := request st c.1 c.2.1 c.2.2
    let rest := issueCalls r.1 cs
    (rest.1, r.2.1 :: rest.2)

end MCPClient

/-- Whether a `method` value is one of the three names the server's `switch`
dispatches (src/index.js lines 53-172); everything else falls to the `default`
case. -/
def isKnownMethod : Option JValue → Bool
  | some (.jstr "initialize") => true
  | some (.jstr "tools/list") => true
  | some (.jstr "tools/call") => true
  | _ => false

/-- Whether a tool name value is one of the four tools the inner `switch`
dispatches (src/index.js lines 139-164). -/
def isKnownTool : Option JValue → Bool
  | some (.jstr "list_sentences") => true
  | some (.jstr "search_by_sala") => true
  | some (.jstr "search_by_judge") => true
  | some (.jstr "get_sentence") => true
  | _ => false

/-- A successful reply envelope as the client receives it off the wire, after
`JSON.parse`: result `r` correlated to request identifier `k`. -/
def resultReplyObj (r : JValue) (k : Int) : JValue :=
  .jobj [("jsonrpc", .jstr "2.0"), ("result", r), ("id", .jnum k)]

open MCPClient

/-- Monad plumbing: binding a successful `Except` runs the continuation. -/
theorem except_bind_ok {ε α β : Type} (a : α) (f : α → Except ε β) :
    (Except.ok a >>= f : Except ε β) = f a := rfl

/-- Monad plumbing: binding a failed `Except` keeps the failure. -/
theorem except_bind_err {ε α β : Type} (e : ε) (f : α → Except ε β) :
    (Except.error e >>= f : Except ε β) = Except.error e := rfl

/-- Deleting one key from the pending map leaves lookups of every other key
unchanged. -/
theorem mapGet_mapDelete_ne {τ : Type} (m : List (Int × τ)) (i j : Int) (h : i ≠ j) :
    mapGet (mapDelete m j) i = mapGet m i := by
  induction m with
  | nil => rfl
  | cons p m ih =>
    unfold mapGet mapDelete at ih ⊢
    rw [List.filter_cons]
    by_cases hp : p.1 = j
    · have h1 : (p.1 != j) = false := by simp [hp]
      have h2 : (p.1 == i) = false := by
        rw [hp]; exact beq_eq_false_iff_ne.mpr (Ne.symm h)
      simp only [h1, Bool.false_eq_true, if_false]
      rw [List.find?_cons, h2]
      exact ih
    · have h1 : (p.1 != j) = true := by simp [hp]
      simp only [h1, if_true]
      rw [List.find?_cons, List.find?_cons]
      cases hpi : (p.1 == i) with
      | true => rfl
      | false => exact ih

/-- Calls issued back to back from state `st` are assigned the consecutive
identifiers `st.nextId, st.nextId + 1, ...`. -/
theorem issueCalls_ids {τ : Type} (calls : List (τ × String × JValue)) :
    ∀ st : ClientState τ,
      (issueCalls st calls).2 =
        (List.range calls.length).map (fun (k : Nat) => st.nextId + (k : Int)) := by
  induction calls with
  | nil => intro st; rfl
  | cons c cs ih =>
    intro st
    have h1 : (issueCalls st (c :: cs)).2 =
        st.nextId :: (issueCalls ⟨mapSet st.pending st.nextId c.1, st.nextId + 1⟩ cs).2 := rfl
    rw [h1, ih]
    rw [List.length_cons, List.range_succ_eq_map, List.map_cons, List.map_map]
    refine List.cons_eq_cons.mpr ⟨by simp, ?_⟩
    apply List.map_congr_left
    intro k _
    simp only [Function.comp_apply]
    push_cast
    ring

/-- A well-formed successful reply whose (nonzero) identifier is pending
settles exactly that record: the record is removed, its resolve continuation
receives the reply's `result`, and `nextId` is untouched. -/
theorem connectOnMessage_reply {τ : Type} (st : ClientState τ) (k : Int) (h : τ) (r : JValue)
    (hk : 0 < k) (hh : mapGet st.pending k = some h) :
    connectOnMessage st (.value (resultReplyObj r k)) =
      .ok (⟨mapDelete st.pending k, st.nextId⟩, some (.resolved h (some r))) := by
  have hne : (0 == k) = false := beq_eq_false_iff_ne.mpr (by omega)
  simp [connectOnMessage, resultReplyObj, jsProp, objLookup, strictEqNum, hne, hh,
    except_bind_ok, jsTruthy]

/-- If one property access on `v` did not throw, `v` is not `null`, so no
other property access on `v` throws either. -/
theorem jsProp_ok_any (v : JValue) (k k2 : String) (m : Option JValue)
    (h : jsProp (some v) k = .ok m) : ∃ p, jsProp (some v) k2 = .ok p := by
  cases v <;> simp [jsProp] at h ⊢

/-- Dispatch of a parsed `tools/call` request: the reply wraps whatever the
tool handler returns, and a handler exception propagates out of the `try`
block. -/
theorem serverDispatch_toolsCall (v params : JValue) (nameV argsV i : Option JValue)
    (hm : jsProp (some v) "method" = .ok (some (.jstr "tools/call")))
    (hp : jsProp (some v) "params" = .ok (some params))
    (hi : jsProp (some v) "id" = .ok i)
    (hn : jsProp (some params) "name" = .ok nameV)
    (ha : jsProp (some params) "arguments" = .ok argsV) :
    serverDispatch v =
      match toolHandler nameV (argsOrDefault argsV) with
      | .ok tr => .ok (.result (contentWrap tr) i)
      | .error e => .error e := by
  unfold serverDispatch
  rw [hm, except_bind_ok, hp, except_bind_ok, hi, except_bind_ok]
  cases ht : toolHandler nameV (argsOrDefault argsV) with
  | ok tr => simp [hn, ha, except_bind_ok, ht]
  | error e => simp [hn, ha, except_bind_ok, except_bind_err, ht]

/-- Dispatch of a parsed request whose `method` is none of the three known
names: the `default` case builds the unknown-method error envelope. -/
theorem serverDispatch_unknownMethod (v : JValue) (m i : Option JValue)
    (hm : jsProp (some v) "method" = .ok m)
    (hi : jsProp (some v) "id" = .ok i)
    (hk : isKnownMethod m = false) :
    serverDispatch v =
      .ok (.rpcError (-32601) ("Método desconocido: " ++ jsToStringOpt m) i) := by
  obtain ⟨p, hp⟩ := jsProp_ok_any v "method" "params" m hm
  unfold serverDispatch
  rw [hm, except_bind_ok, hp, except_bind_ok, hi, except_bind_ok]
  split
  · simp_all [isKnownMethod]
  · simp_all [isKnownMethod]
  · simp_all [isKnownMethod]
  · rfl

/-- Dispatch of a parsed `tools/list` request: the reply carries the static
descriptor list, echoing the request identifier. -/
theorem serverDispatch_toolsList (v : JValue) (i : Option JValue)
    (hm : jsProp (some v) "method" = .ok (some (.jstr "tools/list")))
    (hi : jsProp (some v) "id" = .ok i) :
    serverDispatch v = .ok (.result toolsListResult i) := by
  obtain ⟨p, hp⟩ := jsProp_ok_any v "method" "params" _ hm
  unfold serverDispatch
  rw [hm, except_bind_ok, hp, except_bind_ok, hi, except_bind_ok]
  rfl

/-- Claim C1: for every pair of distinct outstanding calls on one connection,
replies delivered in any interleaved order settle the correct call.
`MCPClient.request` assigns monotonically increasing integer identifiers
starting at 1 (strictly increasing, so never reused for the connection's
lifetime), `request` alone advances `nextId`, and the inbound-message handler
settles a call solely by looking its identifier up in the pending map: from a
state with records for `i ≠ j`, the reply bearing `j` settles exactly `j`'s
record (leaving `i` pending) and the reply bearing `i` then settles `i`'s —
independent of arrival order. -/
theorem claim_C1 (τ : Type) (st : ClientState τ) (i j : Int) (hi hj : τ) (ri rj : JValue)
    (hij : i ≠ j) (hi0 : 0 < i) (hj0 : 0 < j)
    (hpi : mapGet st.pending i = some hi) (hpj : mapGet st.pending j = some hj) :
    (∀ calls : List (τ × String × JValue),
        (issueCalls (freshClient τ) calls).2 =
          (List.range calls.length).map (fun (k : Nat) => 1 + (k : Int)) ∧
        List.Pairwise (· < ·) (issueCalls (freshClient τ) calls).2) ∧
    (∀ (handler : τ) (method : String) (params : JValue),
        (request st handler method params).2.1 = st.nextId ∧
        (request st handler method params).1.nextId = st.nextId + 1) ∧
    connectOnMessage st (.value (resultReplyObj rj j)) =
      .ok (⟨mapDelete st.pending j, st.nextId⟩, some (.resolved hj (some rj))) ∧
    mapGet (mapDelete st.pending j) i = some hi ∧
    connectOnMessage ⟨mapDelete st.pending j, st.nextId⟩ (.value (resultReplyObj ri i)) =
      .ok (⟨mapDelete (mapDelete st.pending j) i, st.nextId⟩,
           some (.resolved hi (some ri))) := by
  have hstill : mapGet (mapDelete st.pending j) i = some hi := by
    rw [mapGet_mapDelete_ne _ i j hij]; exact hpi
  refine ⟨?_, ?_, ?_, hstill, ?_⟩
  · intro calls
    constructor
    · rw [issueCalls_ids]; rfl
    · rw [issueCalls_ids]
      exact (List.pairwise_lt_range calls.length).map _
        (fun a b hab => by omega)
  · intro handler method params; exact ⟨rfl, rfl⟩
  · exact connectOnMessage_reply st j hj rj hj0 hpj
  · exact connectOnMessage_reply ⟨mapDelete st.pending j, st.nextId⟩ i hi ri hi0 hstill

/-- Witness for C1 at a concrete state: with records 1 and 2 pending, the
reply bearing identifier 2 settles record 2. -/
theorem claim_C1_witness :
    connectOnMessage (⟨[(1, 10), (2, 20)], 3⟩ : ClientState Nat)
        (.value (resultReplyObj (.jstr "b") 2)) =
      .ok (⟨mapDelete [(1, 10), (2, 20)] 2, 3⟩, some (.resolved 20 (some (.jstr "b")))) :=
  (claim_C1 Nat ⟨[(1, 10), (2, 20)], 3⟩ 1 2 10 20 (.jstr "a") (.jstr "b")
    (by decide) (by decide) (by decide) rfl rfl).2.2.1

/-- Counterexample to claim C2 as stated: a `tools/call` for `search_by_sala`
with an (empty) argument object missing `sala` makes the handler throw a
`TypeError` past the dispatch boundary; the reply is the catch-all RPC *error*
envelope (`-32700`, null identifier), not a successful envelope carrying an
error-shaped result. -/
theorem claim_C2_counterexample :
    serverHandleMessage (.value (.jobj
      [("jsonrpc", .jstr "2.0"), ("method", .jstr "tools/call"),
       ("params", .jobj [("name", .jstr "search_by_sala"), ("arguments", .jobj [])]),
       ("id", .jnum 10)])) = .rpcError (-32700) "Parse error" (some .jnull) ∧
    toolHandler (some (.jstr "search_by_sala")) (.jobj []) =
      .error "TypeError: Cannot read properties of undefined (reading toLowerCase)" :=
  ⟨rfl, rfl⟩

/-- Claim C2 as amended: for every `tools/call` request, whenever the tool
handler completes without a JavaScript exception its (possibly error-shaped)
result is wrapped in a successful reply envelope; but a handler that throws —
`search_by_sala` / `search_by_judge` with a missing or non-string argument —
escapes to the connection-level catch, which replies with an RPC error
envelope, code `-32700`, null identifier, so the uniform reply path is not
preserved for those inputs. -/
theorem claim_C2 (v params : JValue) (nameV argsV i : Option JValue)
    (hm : jsProp (some v) "method" = .ok (some (.jstr "tools/call")))
    (hp : jsProp (some v) "params" = .ok (some params))
    (hi : jsProp (some v) "id" = .ok i)
    (hn : jsProp (some params) "name" = .ok nameV)
    (ha : jsProp (some params) "arguments" = .ok argsV) :
    (∀ tr : JValue, toolHandler nameV (argsOrDefault argsV) = .ok tr →
        serverHandleMessage (.value v) = .result (contentWrap tr) i) ∧
    (∀ e : String, toolHandler nameV (argsOrDefault argsV) = .error e →
        serverHandleMessage (.value v) = .rpcError (-32700) "Parse error" (some .jnull)) := by
  have hd := serverDispatch_toolsCall v params nameV argsV i hm hp hi hn ha
  constructor
  · intro tr htr
    simp [serverHandleMessage, hd, htr]
  · intro e he
    simp [serverHandleMessage, hd, he]

/-- Witness for the amended C2: `search_by_judge` with empty arguments throws,
and the server answers with the parse-error envelope. -/
theorem claim_C2_witness :
    serverHandleMessage (.value (.jobj
      [("method", .jstr "tools/call"),
       ("params", .jobj [("name", .jstr "search_by_judge"), ("arguments", .jobj [])]),
       ("id", .jnum 13)])) = .rpcError (-32700) "Parse error" (some .jnull) :=
  (claim_C2 (.jobj
      [("method", .jstr "tools/call"),
       ("params", .jobj [("name", .jstr "search_by_judge"), ("arguments", .jobj [])]),
       ("id", .jnum 13)])
    (.jobj [("name", .jstr "search_by_judge"), ("arguments", .jobj [])])
    (some (.jstr "search_by_judge")) (some (.jobj [])) (some (.jnum 13))
    rfl rfl rfl rfl rfl).2
    "TypeError: Cannot read properties of undefined (reading toLowerCase)" rfl

/-- Claim C3: an unparsable inbound message makes the server reply with an
error envelope, code `-32700`, null identifier (never silent), while the
client drops it silently: no exception escapes, the state is unchanged, and no
pending call is settled or removed. -/
theorem claim_C3 :
    serverHandleMessage ServerIn.unparsable =
      Envelope.rpcError (-32700) "Parse error" (some JValue.jnull) ∧
    ∀ (τ : Type) (st : ClientState τ),
      connectOnMessage st ClientIn.unparsable = Except.ok (st, none) :=
  ⟨rfl, fun _ _ => rfl⟩

/-- Claim C4: on the transport's close event every Pending Call Record still
in the pending map is rejected with the connection-closed error, exactly once
each (one rejection event per pending entry — the event multiset matches the
pending multiset, so no record is double-settled), and the pending map is
cleared; `nextId` is untouched. -/
theorem claim_C4 (τ : Type) [DecidableEq τ] (st : ClientState τ) :
    (connectOnClose st).1.pending = [] ∧
    (connectOnClose st).1.nextId = st.nextId ∧
    (connectOnClose st).2 =
      st.pending.map (fun p => ClientEvent.rejected p.2 "Conexión cerrada inesperadamente") ∧
    (connectOnClose st).2.length = st.pending.length ∧
    ∀ h : τ,
      (connectOnClose st).2.countP
          (fun e => match e with
            | .rejected h2 m =>
              decide (h2 = h) && decide (m = "Conexión cerrada inesperadamente")
            | _ => false) =
        st.pending.countP (fun p => decide (p.2 = h)) := by
  refine ⟨rfl, rfl, rfl, by simp [connectOnClose], ?_⟩
  intro h
  show (st.pending.map
      (fun p => ClientEvent.rejected p.2 "Conexión cerrada inesperadamente")).countP _ = _
  rw [List.countP_map]
  apply List.countP_congr
  intro p _
  simp [Function.comp]

/-- Witness for C4 at a concrete state with two pending records. -/
theorem claim_C4_witness :
    (connectOnClose (⟨[(1, 10), (2, 20)], 3⟩ : ClientState Nat)).1.pending = [] ∧
    (connectOnClose (⟨[(1, 10), (2, 20)], 3⟩ : ClientState Nat)).2 =
      [ClientEvent.rejected 10 "Conexión cerrada inesperadamente",
       ClientEvent.rejected 20 "Conexión cerrada inesperadamente"] :=
  ⟨(claim_C4 Nat ⟨[(1, 10), (2, 20)], 3⟩).1,
   (claim_C4 Nat ⟨[(1, 10), (2, 20)], 3⟩).2.2.1⟩

/-- Claim C5: on every accepted connection the server immediately sends
exactly one unsolicited handshake envelope, bearing the reserved identifier 0
and a capabilities/version payload (`protocolVersion`, `capabilities`,
`serverInfo`), before receiving any request; and a client receiving any
envelope whose identifier is 0 drops it without settling or rejecting any
pending call and without throwing. -/
theorem claim_C5 (τ : Type) (st : ClientState τ) (msg : JValue)
    (h0 : jsProp (some msg) "id" = .ok (some (.jnum 0))) :
    serverOnConnect = [Envelope.result serverCapsResult (some (.jnum 0))] ∧
    serverOnConnect.length = 1 ∧
    serverOnConnect.map Envelope.envId = [some (.jnum 0)] ∧
    jsProp (some serverCapsResult) "protocolVersion" = .ok (some (.jstr "2024-11-05")) ∧
    jsProp (some serverCapsResult) "capabilities" =
      .ok (some (.jobj [("logging", .jobj []), ("tools", .jobj [])])) ∧
    jsProp (some serverCapsResult) "serverInfo" =
      .ok (some (.jobj [("name", .jstr "Cendoj MCP Server"), ("version", .jstr "1.0.0")])) ∧
    connectOnMessage st (.value msg) = .ok (st, none) := by
  refine ⟨rfl, rfl, rfl, rfl, rfl, rfl, ?_⟩
  simp [connectOnMessage, h0, except_bind_ok, strictEqNum]

/-- Witness for C5: a client with one pending record drops a concrete id-0
handshake envelope unchanged. -/
theorem claim_C5_witness :
    connectOnMessage (⟨[(1, 5)], 2⟩ : ClientState Nat)
        (.value (.jobj [("jsonrpc", .jstr "2.0"), ("result", .jobj []), ("id", .jnum 0)])) =
      .ok (⟨[(1, 5)], 2⟩, none) :=
  (claim_C5 Nat ⟨[(1, 5)], 2⟩
    (.jobj [("jsonrpc", .jstr "2.0"), ("result", .jobj []), ("id", .jnum 0)])
    rfl).2.2.2.2.2.2

/-- Claim C6: every parseable inbound envelope whose `method` is none of
`initialize`, `tools/list`, `tools/call` gets an error envelope with reserved
code `-32601`, echoing the request's identifier — never silently dropped. -/
theorem claim_C6 (v : JValue) (m i : Option JValue)
    (hm : jsProp (some v) "method" = .ok m)
    (hi : jsProp (some v) "id" = .ok i)
    (hk : isKnownMethod m = false) :
    serverHandleMessage (.value v) =
      .rpcError (-32601) ("Método desconocido: " ++ jsToStringOpt m) i := by
  simp [serverHandleMessage, serverDispatch_unknownMethod v m i hm hi hk]

/-- Witness for C6: method `foo/bar` is answered with `-32601`, echoing
identifier 11. -/
theorem claim_C6_witness :
    serverHandleMessage (.value (.jobj
      [("jsonrpc", .jstr "2.0"), ("method", .jstr "foo/bar"), ("id", .jnum 11)])) =
      .rpcError (-32601) "Método desconocido: foo/bar" (some (.jnum 11)) :=
  claim_C6 (.jobj [("jsonrpc", .jstr "2.0"), ("method", .jstr "foo/bar"), ("id", .jnum 11)])
    (some (.jstr "foo/bar")) (some (.jnum 11)) rfl rfl rfl

/-- Claim C7: round-trip — for every `tools/call` request naming a known tool
whose handler completes on the given arguments (the valid-argument case), the
reply is a successful envelope whose result is
`{content: [{type: "text", text: <JSON string>}]}` where the text is exactly
the JSON encoding of the value the tool handler produces when applied directly
to the same arguments, so decoding it recovers that value. -/
theorem claim_C7 (v params : JValue) (nameV argsV i : Option JValue) (tr : JValue)
    (hm : jsProp (some v) "method" = .ok (some (.jstr "tools/call")))
    (hp : jsProp (some v) "params" = .ok (some params))
    (hi : jsProp (some v) "id" = .ok i)
    (hn : jsProp (some params) "name" = .ok nameV)
    (ha : jsProp (some params) "arguments" = .ok argsV)
    (_hknown : isKnownTool nameV = true)
    (hok : toolHandler nameV (argsOrDefault argsV) = .ok tr) :
    serverHandleMessage (.value v) = .result (contentWrap tr) i ∧
    contentWrap tr = .jobj [("content", .jarr [.jobj [("type", .jstr "text"),
      ("text", .jstr (jsonStringify tr))]])] := by
  have hd := serverDispatch_toolsCall v params nameV argsV i hm hp hi hn ha
  exact ⟨by simp [serverHandleMessage, hd, hok], rfl⟩

/-- Witness for C7: `list_sentences` round-trips the full store. -/
theorem claim_C7_witness :
    serverHandleMessage (.value (.jobj
      [("method", .jstr "tools/call"),
       ("params", .jobj [("name", .jstr "list_sentences"), ("arguments", .jobj [])]),
       ("id", .jnum 3)])) =
      .result (contentWrap (.jobj [("data", .jarr (sentencias.map sentenciaJ)),
        ("count", .jnum 3)])) (some (.jnum 3)) :=
  (claim_C7 (.jobj
      [("method", .jstr "tools/call"),
       ("params", .jobj [("name", .jstr "list_sentences"), ("arguments", .jobj [])]),
       ("id", .jnum 3)])
    (.jobj [("name", .jstr "list_sentences"), ("arguments", .jobj [])])
    (some (.jstr "list_sentences")) (some (.jobj [])) (some (.jnum 3))
    (.jobj [("data", .jarr (sentencias.map sentenciaJ)), ("count", .jnum 3)])
    rfl rfl rfl rfl rfl rfl rfl).1

/-- Claim C8: against the store with records 1-3, `get_sentence` with id 2
replies a successful envelope whose decoded text payload is
`{data: <record 2>}`; with id 999 it decodes to
`{error: "Sentencia 999 no encontrada"}`; an unknown tool name decodes to an
error field — in all three cases a successful (non-RPC-error) envelope echoing
the request identifier. -/
theorem claim_C8 :
    serverHandleMessage (.value (.jobj
      [("jsonrpc", .jstr "2.0"), ("method", .jstr "tools/call"),
       ("params", .jobj [("name", .jstr "get_sentence"),
                         ("arguments", .jobj [("id", .jnum 2)])]),
       ("id", .jnum 42)])) =
      .result (contentWrap (.jobj [("data", .jobj
        [("id", .jnum 2), ("sala", .jstr "Sala de Contencioso"),
         ("juez", .jstr "María López"), ("cendoj_id", .jstr "28079150022015000002"),
         ("resolucion", .jstr "Sentencia desestimada")])])) (some (.jnum 42)) ∧
    serverHandleMessage (.value (.jobj
      [("jsonrpc", .jstr "2.0"), ("method", .jstr "tools/call"),
       ("params", .jobj [("name", .jstr "get_sentence"),
                         ("arguments", .jobj [("id", .jnum 999)])]),
       ("id", .jnum 43)])) =
      .result (contentWrap (.jobj [("error", .jstr "Sentencia 999 no encontrada")]))
        (some (.jnum 43)) ∧
    serverHandleMessage (.value (.jobj
      [("jsonrpc", .jstr "2.0"), ("method", .jstr "tools/call"),
       ("params", .jobj [("name", .jstr "does_not_exist"),
                         ("arguments", .jobj [])]),
       ("id", .jnum 44)])) =
      .result (contentWrap (.jobj [("error", .jstr "Herramienta desconocida: does_not_exist")]))
        (some (.jnum 44)) ∧
    sentencias.map (fun s => s.id) = [1, 2, 3] :=
  ⟨rfl, rfl, rfl, rfl⟩

/-- Claim C9: two `tools/list` requests on one connection return identical
result content — the same ordered sequence of the four static Tool Descriptors
(name, description, inputSchema), regardless of the requests' identifiers. -/
theorem claim_C9 (v1 v2 : JValue) (i1 i2 : Option JValue)
    (h1m : jsProp (some v1) "method" = .ok (some (.jstr "tools/list")))
    (h1i : jsProp (some v1) "id" = .ok i1)
    (h2m : jsProp (some v2) "method" = .ok (some (.jstr "tools/list")))
    (h2i : jsProp (some v2) "id" = .ok i2) :
    serverHandleMessage (.value v1) = .result toolsListResult i1 ∧
    serverHandleMessage (.value v2) = .result toolsListResult i2 ∧
    (serverHandleMessage (.value v1)).payload = (serverHandleMessage (.value v2)).payload ∧
    toolsListResult = .jobj [("tools", .jarr toolDescriptors)] ∧
    toolDescriptors.map (fun d => jsProp (some d) "name") =
      [.ok (some (.jstr "list_sentences")), .ok (some (.jstr "search_by_sala")),
       .ok (some (.jstr "search_by_judge")), .ok (some (.jstr "get_sentence"))] := by
  have d1 : serverHandleMessage (.value v1) = .result toolsListResult i1 := by
    simp [serverHandleMessage, serverDispatch_toolsList v1 i1 h1m h1i]
  have d2 : serverHandleMessage (.value v2) = .result toolsListResult i2 := by
    simp [serverHandleMessage, serverDispatch_toolsList v2 i2 h2m h2i]
  exact ⟨d1, d2, by rw [d1, d2]; rfl, rfl, rfl⟩

/-- Witness for C9: two concrete `tools/list` requests with different
identifiers both return the same static descriptor list. -/
theorem claim_C9_witness :
    serverHandleMessage (.value (.jobj [("method", .jstr "tools/list"), ("id", .jnum 1)])) =
      .result toolsListResult (some (.jnum 1)) ∧
    serverHandleMessage (.value (.jobj [("method", .jstr "tools/list"), ("id", .jnum 2)])) =
      .result toolsListResult (some (.jnum 2)) :=
  ⟨(claim_C9 (.jobj [("method", .jstr "tools/list"), ("id", .jnum 1)])
      (.jobj [("method", .jstr "tools/list"), ("id", .jnum 2)])
      (some (.jnum 1)) (some (.jnum 2)) rfl rfl rfl rfl).1,
   (claim_C9 (.jobj [("method", .jstr "tools/list"), ("id", .jnum 1)])
      (.jobj [("method", .jstr "tools/list"), ("id", .jnum 2)])
      (some (.jnum 1)) (some (.jnum 2)) rfl rfl rfl rfl).2.1⟩

/-- Claim C10 (implicit): `get_sentence` matches the requested id by strict
equality with no coercion, so a `tools/call` with the string argument
`{id: "2"}` against a store containing record 2 yields the not-found payload
`{error: "Sentencia 2 no encontrada"}` rather than the record. -/
theorem claim_C10 :
    strictEqNum 2 (some (.jstr "2")) = false ∧
    toolHandler (some (.jstr "get_sentence")) (.jobj [("id", .jstr "2")]) =
      .ok (.jobj [("error", .jstr "Sentencia 2 no encontrada")]) ∧
    serverHandleMessage (.value (.jobj
      [("jsonrpc", .jstr "2.0"), ("method", .jstr "tools/call"),
       ("params", .jobj [("name", .jstr "get_sentence"),
                         ("arguments", .jobj [("id", .jstr "2")])]),
       ("id", .jnum 9)])) =
      .result (contentWrap (.jobj [("error", .jstr "Sentencia 2 no encontrada")]))
        (some (.jnum 9)) ∧
    (sentencias.map (fun s => s.id)).contains 2 = true :=
  ⟨rfl, rfl, rfl, rfl⟩
